import Mathlib

/-!
Verification of the role-based access-control and appointment-booking layer
of the `ehr-backend` repository.

The Python source (Django + graphene) is shallowly embedded:

* the five Django models (`users/models.py`, `doctors/models.py`,
  `patients/models.py`, `appointments/models.py`, `medical_records/models.py`)
  become Lean structures whose fields are the ones the permission layer and
  the claims inspect; policy-irrelevant free-text columns (education,
  allergies, symptoms, ...) are elided;
* the relational store becomes a `Store` of lists; `objects.get` becomes
  `List.find?`; `objects.create` / `save()` become insert/save functions that
  enforce the declared uniqueness constraints (`unique_together ['doctor',
  'appointment_date']` on appointments, `unique=True` on
  `Doctor.license_number`, `Patient.medical_record_number`, the one-to-one
  user links, and `User.username`) by returning `Except.error` exactly when
  the database would raise an `IntegrityError`;
* each GraphQL resolver / mutation of the `schema.py` files becomes a total
  function taking the caller as `Option User` (`none` = unauthenticated);
  the `@login_required` decorator becomes an initial `match` returning
  `Resolved.denied`; resolvers that lack the decorator in the source ignore
  the caller;
* timestamps (`DateTimeField`) are embedded as `Int`.
-/

/-- `User.Role` from `users/models.py`. -/
inductive Role where
  | PATIENT
  | DOCTOR
  | ADMIN
deriving DecidableEq, Repr

/-- `Appointment.Status` from `appointments/models.py`. -/
inductive Status where
  | SCHEDULED
  | CONFIRMED
  | IN_PROGRESS
  | COMPLETED
  | CANCELLED
  | NO_SHOW
deriving DecidableEq, Repr

/-- `User` model (`users/models.py`): id, unique username, role.
Contact columns (email, phone, date_of_birth) are policy-irrelevant and
elided. -/
structure User where
  id : Nat
  username : String
  role : Role
deriving DecidableEq, Repr

/-- `User.is_patient` property. -/
def User.is_patient (u : User) : Bool := u.role == Role.PATIENT

/-- `User.is_doctor` property. -/
def User.is_doctor (u : User) : Bool := u.role == Role.DOCTOR

/-- `User.is_admin` property. -/
def User.is_admin (u : User) : Bool := u.role == Role.ADMIN

/-- `Doctor` model (`doctors/models.py`): one-to-one user link, the unique
license number, and the mutable profile columns the update mutation touches
(represented by `specialization` and `years_of_experience`). -/
structure Doctor where
  id : Nat
  user_id : Nat
  specialization : String
  license_number : String
  years_of_experience : Nat
deriving DecidableEq, Repr

/-- `Patient` model (`patients/models.py`): one-to-one user link, the unique
medical record number, and a representative mutable column (`address`). -/
structure Patient where
  id : Nat
  user_id : Nat
  medical_record_number : String
  address : Option String
deriving DecidableEq, Repr

/-- `Appointment` model (`appointments/models.py`). `status` defaults to
`SCHEDULED`, `duration_minutes` to 30; `unique_together ['doctor',
'appointment_date']` is enforced by the store operations below. -/
structure Appointment where
  id : Nat
  patient_id : Nat
  doctor_id : Nat
  appointment_date : Int
  status : Status
  notes : Option String
  reason_for_visit : Option String
  duration_minutes : Nat
deriving DecidableEq, Repr

/-- `MedicalRecord` model (`medical_records/models.py`): the required columns
plus `follow_up_required`; optional free-text columns are elided. -/
structure MedicalRecord where
  id : Nat
  patient_id : Nat
  doctor_id : Nat
  visit_date : Int
  diagnosis : String
  treatment_notes : String
  follow_up_required : Bool
deriving DecidableEq, Repr

/-- The relational store: one table per model. -/
structure Store where
  users : List User
  doctors : List Doctor
  patients : List Patient
  appointments : List Appointment
  medical_records : List MedicalRecord
deriving DecidableEq, Repr

/-- `User.objects.get(id=...)` (`None` for `DoesNotExist`). -/
def Store.findUser (s : Store) (i : Nat) : Option User :=
  s.users.find? (fun u => u.id == i)

/-- `Doctor.objects.get(id=...)`. -/
def Store.findDoctor (s : Store) (i : Nat) : Option Doctor :=
  s.doctors.find? (fun d => d.id == i)

/-- `Patient.objects.get(id=...)`. -/
def Store.findPatient (s : Store) (i : Nat) : Option Patient :=
  s.patients.find? (fun p => p.id == i)

/-- `Appointment.objects.get(id=...)`. -/
def Store.findAppointment (s : Store) (i : Nat) : Option Appointment :=
  s.appointments.find? (fun a => a.id == i)

/-- `MedicalRecord.objects.get(id=...)`. -/
def Store.findMedicalRecord (s : Store) (i : Nat) : Option MedicalRecord :=
  s.medical_records.find? (fun m => m.id == i)

/-- Owning user of `appointment.doctor` (`appointment.doctor.user`). -/
def apptDoctorUserId (s : Store) (a : Appointment) : Option Nat :=
  (s.findDoctor a.doctor_id).map Doctor.user_id

/-- Owning user of `appointment.patient` (`appointment.patient.user`). -/
def apptPatientUserId (s : Store) (a : Appointment) : Option Nat :=
  (s.findPatient a.patient_id).map Patient.user_id

/-- Owning user of `medical_record.doctor`. -/
def mrDoctorUserId (s : Store) (m : MedicalRecord) : Option Nat :=
  (s.findDoctor m.doctor_id).map Doctor.user_id

/-- Owning user of `medical_record.patient`. -/
def mrPatientUserId (s : Store) (m : MedicalRecord) : Option Nat :=
  (s.findPatient m.patient_id).map Patient.user_id

/-- `patient.appointments.filter(doctor__user=user).exists()`: the doctor/
patient sharing predicate used by the patient resolvers and mutations. -/
def patientSharesAppointmentWith (s : Store) (p : Patient) (u : User) : Bool :=
  s.appointments.any (fun a =>
    a.patient_id == p.id && apptDoctorUserId s a == some u.id)

/-- `Appointment.is_upcoming` property (`appointments/models.py`). -/
def is_upcoming (a : Appointment) (now : Int) : Bool :=
  decide (a.appointment_date > now) &&
    (a.status == Status.SCHEDULED || a.status == Status.CONFIRMED)

/-- `Appointment.is_past` property (`appointments/models.py`). -/
def is_past (a : Appointment) (now : Int) : Bool :=
  decide (a.appointment_date < now)

/-- Result of a resolver or mutation: `denied` is the auth failure raised by
the `@login_required` decorator; `ok` is a value actually produced by the
resolver body. -/
inductive Resolved (α : Type) where
  | denied : Resolved α
  | ok : α → Resolved α
deriving DecidableEq, Repr

/-- The uniform graphene mutation payload `{entity, success, errors}`. -/
structure MutationResult (α : Type) where
  entity : Option α
  success : Bool
  errors : List String
deriving DecidableEq, Repr

/-- Successful mutation payload: `success=True, errors=[]`. -/
def mOk {α : Type} (a : α) : MutationResult α := ⟨some a, true, []⟩

/-- Failed mutation payload: entity `None`, `success=False`, one error
string. -/
def mErr {α : Type} (e : String) : MutationResult α := ⟨none, false, [e]⟩

/-- Fresh primary key for an insert: one more than the largest id in use. -/
def freshId (ids : List Nat) : Nat := ids.foldr (fun i m => max i m) 0 + 1

/-- `resolve_user_by_id` (`users/schema.py`). Unlike every other resolver in
that file, the source carries no `@login_required` decorator and never reads
`info.context.user`, so the caller argument is ignored. -/
def resolve_user_by_id (_caller : Option User) (s : Store) (i : Nat) :
    Resolved (Option User) :=
  .ok (s.findUser i)

/-- `resolve_me` (`users/schema.py`), guarded by `@login_required`. -/
def resolve_me (caller : Option User) : Resolved User :=
  match caller with
  | none => .denied
  | some user => .ok user

/-- `resolve_all_users` (`users/schema.py`): admin sees all, everyone else an
empty queryset. -/
def resolve_all_users (caller : Option User) (s : Store) :
    Resolved (List User) :=
  match caller with
  | none => .denied
  | some user => if user.is_admin then .ok s.users else .ok []

/-- `resolve_all_doctors` (`doctors/schema.py`): public, no decorator, no
role check. -/
def resolve_all_doctors (_caller : Option User) (s : Store) :
    Resolved (List Doctor) :=
  .ok s.doctors

/-- `resolve_doctor_by_id` (`doctors/schema.py`): public. -/
def resolve_doctor_by_id (_caller : Option User) (s : Store) (i : Nat) :
    Resolved (Option Doctor) :=
  .ok (s.findDoctor i)

/-- `resolve_doctor_by_license` (`doctors/schema.py`): public. -/
def resolve_doctor_by_license (_caller : Option User) (s : Store)
    (license_number : String) : Resolved (Option Doctor) :=
  .ok (s.doctors.find? (fun d => d.license_number == license_number))

/-- `resolve_search_doctors` (`doctors/schema.py`): public; the text-search
filter is elided (`search=None`), the specialization filter kept. -/
def resolve_search_doctors (_caller : Option User) (s : Store)
    (specialization : Option String) : Resolved (List Doctor) :=
  match specialization with
  | none => .ok s.doctors
  | some sp => .ok (s.doctors.filter (fun d => d.specialization == sp))

/-- `resolve_all_appointments` (`appointments/schema.py`). -/
def resolve_all_appointments (caller : Option User) (s : Store) :
    Resolved (List Appointment) :=
  match caller with
  | none => .denied
  | some user =>
    if user.is_admin then .ok s.appointments
    else if user.is_doctor then
      .ok (s.appointments.filter (fun a => apptDoctorUserId s a == some user.id))
    else if user.is_patient then
      .ok (s.appointments.filter (fun a => apptPatientUserId s a == some user.id))
    else .ok []

/-- `resolve_appointment_by_id` (`appointments/schema.py`). -/
def resolve_appointment_by_id (caller : Option User) (s : Store) (i : Nat) :
    Resolved (Option Appointment) :=
  match caller with
  | none => .denied
  | some user =>
    match s.findAppointment i with
    | none => .ok none
    | some appointment =>
      if user.is_admin then .ok (some appointment)
      else if user.is_doctor && apptDoctorUserId s appointment == some user.id then
        .ok (some appointment)
      else if user.is_patient && apptPatientUserId s appointment == some user.id then
        .ok (some appointment)
      else .ok none

/-- `resolve_all_patients` (`patients/schema.py`). -/
def resolve_all_patients (caller : Option User) (s : Store) :
    Resolved (List Patient) :=
  match caller with
  | none => .denied
  | some user =>
    if user.is_admin then .ok s.patients
    else if user.is_doctor then
      .ok (s.patients.filter (fun p => patientSharesAppointmentWith s p user))
    else if user.is_patient then
      .ok (s.patients.filter (fun p => p.user_id == user.id))
    else .ok []

/-- `resolve_patient_by_id` (`patients/schema.py`). -/
def resolve_patient_by_id (caller : Option User) (s : Store) (i : Nat) :
    Resolved (Option Patient) :=
  match caller with
  | none => .denied
  | some user =>
    match s.findPatient i with
    | none => .ok none
    | some patient =>
      if user.is_admin then .ok (some patient)
      else if user.is_doctor && patientSharesAppointmentWith s patient user then
        .ok (some patient)
      else if user.is_patient && patient.user_id == user.id then
        .ok (some patient)
      else .ok none

/-- `resolve_all_medical_records` (`medical_records/schema.py`). -/
def resolve_all_medical_records (caller : Option User) (s : Store) :
    Resolved (List MedicalRecord) :=
  match caller with
  | none => .denied
  | some user =>
    if user.is_admin then .ok s.medical_records
    else if user.is_doctor then
      .ok (s.medical_records.filter (fun m => mrDoctorUserId s m == some user.id))
    else if user.is_patient then
      .ok (s.medical_records.filter (fun m => mrPatientUserId s m == some user.id))
    else .ok []

/-- `resolve_medical_record_by_id` (`medical_records/schema.py`). -/
def resolve_medical_record_by_id (caller : Option User) (s : Store) (i : Nat) :
    Resolved (Option MedicalRecord) :=
  match caller with
  | none => .denied
  | some user =>
    match s.findMedicalRecord i with
    | none => .ok none
    | some medical_record =>
      if user.is_admin then .ok (some medical_record)
      else if user.is_doctor && mrDoctorUserId s medical_record == some user.id then
        .ok (some medical_record)
      else if user.is_patient && mrPatientUserId s medical_record == some user.id then
        .ok (some medical_record)
      else .ok none

/-- INSERT into `users` (`User.objects.create_user`): the `username` column
is unique (`AbstractUser`); a duplicate raises `IntegrityError`. -/
def usersInsert (s : Store) (u : User) : Except String Store :=
  if s.users.any (fun v => v.username == u.username) then
    .error "UNIQUE constraint failed: users.username"
  else .ok { s with users := s.users ++ [u] }

/-- INSERT into `doctors` (`Doctor.objects.create`): the one-to-one `user`
link and `license_number` are unique. -/
def doctorsInsert (s : Store) (d : Doctor) : Except String Store :=
  if s.doctors.any (fun e => e.user_id == d.user_id) then
    .error "UNIQUE constraint failed: doctors.user_id"
  else if s.doctors.any (fun e => e.license_number == d.license_number) then
    .error "UNIQUE constraint failed: doctors.license_number"
  else .ok { s with doctors := s.doctors ++ [d] }

/-- INSERT into `patients` (`Patient.objects.create`): the one-to-one `user`
link and `medical_record_number` are unique. -/
def patientsInsert (s : Store) (p : Patient) : Except String Store :=
  if s.patients.any (fun q => q.user_id == p.user_id) then
    .error "UNIQUE constraint failed: patients.user_id"
  else if s.patients.any (fun q => q.medical_record_number == p.medical_record_number) then
    .error "UNIQUE constraint failed: patients.medical_record_number"
  else .ok { s with patients := s.patients ++ [p] }

/-- INSERT into `appointments` (`Appointment.objects.create`): enforces
`unique_together = ['doctor', 'appointment_date']` — regardless of status. -/
def appointmentsInsert (s : Store) (a : Appointment) : Except String Store :=
  if s.appointments.any (fun b =>
      b.doctor_id == a.doctor_id && b.appointment_date == a.appointment_date) then
    .error "UNIQUE constraint failed: appointments.doctor_id, appointments.appointment_date"
  else .ok { s with appointments := s.appointments ++ [a] }

/-- UPDATE of an `appointments` row (`appointment.save()`): re-checks the
`(doctor, appointment_date)` uniqueness against every other row, then
replaces the row with the same primary key. -/
def appointmentsSave (s : Store) (a : Appointment) : Except String Store :=
  if s.appointments.any (fun b =>
      !(b.id == a.id) && b.doctor_id == a.doctor_id &&
        b.appointment_date == a.appointment_date) then
    .error "UNIQUE constraint failed: appointments.doctor_id, appointments.appointment_date"
  else .ok { s with appointments :=
    s.appointments.map (fun b => if b.id == a.id then a else b) }

/-- INSERT into `medical_records` (no uniqueness constraints). -/
def medicalRecordsInsert (s : Store) (m : MedicalRecord) : Except String Store :=
  .ok { s with medical_records := s.medical_records ++ [m] }

/-- UPDATE of a `doctors` row (`doctor.save()`); `update_doctor` never
touches a unique column, so the save is a plain row replacement. -/
def doctorsSave (s : Store) (d : Doctor) : Store :=
  { s with doctors := s.doctors.map (fun e => if e.id == d.id then d else e) }

/-- UPDATE of a `patients` row (`patient.save()`); `update_patient` never
touches a unique column. -/
def patientsSave (s : Store) (p : Patient) : Store :=
  { s with patients := s.patients.map (fun q => if q.id == p.id then p else q) }

/-- UPDATE of a `medical_records` row (`medical_record.save()`). -/
def medicalRecordsSave (s : Store) (m : MedicalRecord) : Store :=
  { s with medical_records :=
    s.medical_records.map (fun n => if n.id == m.id then m else n) }

/-- `CreateUser.mutate` (`users/schema.py`): no `@login_required`, no role
check; a store-level exception (duplicate username) is caught and rendered
(`except Exception as e: ... errors=[str(e)]`). The default role is
`PATIENT` (`users/models.py`). -/
def create_user (_caller : Option User) (s : Store) (username : String)
    (role : Option Role) : Resolved (MutationResult User × Store) :=
  let u : User :=
    { id := freshId (s.users.map User.id),
      username := username,
      role := role.getD Role.PATIENT }
  match usersInsert s u with
  | .ok s' => .ok (mOk u, s')
  | .error e => .ok (mErr e, s)

/-- `CreateDoctor.mutate` (`doctors/schema.py`): admin-only; the
`User.objects.get` miss and any store `IntegrityError` are both caught by the
same `except Exception` and rendered as error strings. -/
def create_doctor (caller : Option User) (s : Store) (user_id : Nat)
    (specialization license_number : String)
    (years_of_experience : Option Nat) :
    Resolved (MutationResult Doctor × Store) :=
  match caller with
  | none => .denied
  | some user =>
    if !user.is_admin then
      .ok (mErr "Only admins can create doctors", s)
    else
      match s.findUser user_id with
      | none => .ok (mErr "User matching query does not exist.", s)
      | some user_obj =>
        let d : Doctor :=
          { id := freshId (s.doctors.map Doctor.id),
            user_id := user_obj.id,
            specialization := specialization,
            license_number := license_number,
            years_of_experience := years_of_experience.getD 0 }
        match doctorsInsert s d with
        | .ok s' => .ok (mOk d, s')
        | .error e => .ok (mErr e, s)

/-- `UpdateDoctor.mutate` (`doctors/schema.py`): admins, or a doctor editing
their own profile; non-`None` supplied fields are applied via `setattr`. -/
def update_doctor (caller : Option User) (s : Store) (i : Nat)
    (specialization : Option String) (years_of_experience : Option Nat) :
    Resolved (MutationResult Doctor × Store) :=
  match caller with
  | none => .denied
  | some user =>
    match s.findDoctor i with
    | none => .ok (mErr "Doctor not found", s)
    | some doctor =>
      if user.is_admin || (user.is_doctor && doctor.user_id == user.id) then
        let d : Doctor :=
          { doctor with
            specialization := specialization.getD doctor.specialization,
            years_of_experience :=
              years_of_experience.getD doctor.years_of_experience }
        .ok (mOk d, doctorsSave s d)
      else .ok (mErr "Permission denied", s)

/-- `CreatePatient.mutate` (`patients/schema.py`): admin-only. -/
def create_patient (caller : Option User) (s : Store) (user_id : Nat)
    (medical_record_number : String) (address : Option String) :
    Resolved (MutationResult Patient × Store) :=
  match caller with
  | none => .denied
  | some user =>
    if !user.is_admin then
      .ok (mErr "Only admins can create patients", s)
    else
      match s.findUser user_id with
      | none => .ok (mErr "User matching query does not exist.", s)
      | some user_obj =>
        let p : Patient :=
          { id := freshId (s.patients.map Patient.id),
            user_id := user_obj.id,
            medical_record_number := medical_record_number,
            address := address }
        match patientsInsert s p with
        | .ok s' => .ok (mOk p, s')
        | .error e => .ok (mErr e, s)

/-- `UpdatePatient.mutate` (`patients/schema.py`): admins; doctors only for
patients they share an appointment with; a patient for themselves. -/
def update_patient (caller : Option User) (s : Store) (i : Nat)
    (address : Option String) : Resolved (MutationResult Patient × Store) :=
  match caller with
  | none => .denied
  | some user =>
    match s.findPatient i with
    | none => .ok (mErr "Patient not found", s)
    | some patient =>
      if user.is_admin then
        let p : Patient :=
          { patient with
            address := match address with | some v => some v | none => patient.address }
        .ok (mOk p, patientsSave s p)
      else if user.is_doctor then
        if !patientSharesAppointmentWith s patient user then
          .ok (mErr "You can only update your patients", s)
        else
          let p : Patient :=
            { patient with
              address := match address with | some v => some v | none => patient.address }
          .ok (mOk p, patientsSave s p)
      else if user.is_patient && patient.user_id == user.id then
        let p : Patient :=
          { patient with
            address := match address with | some v => some v | none => patient.address }
        .ok (mOk p, patientsSave s p)
      else .ok (mErr "Permission denied", s)

/-- The `setattr` loop of `UpdateAppointment.mutate`: apply every supplied
non-`None` field to the loaded appointment. -/
def applyAppointmentFields (a : Appointment) (appointment_date : Option Int)
    (status : Option Status) (reason_for_visit : Option String)
    (notes : Option String) (duration_minutes : Option Nat) : Appointment :=
  { a with
    appointment_date := appointment_date.getD a.appointment_date,
    status := status.getD a.status,
    reason_for_visit :=
      match reason_for_visit with | some v => some v | none => a.reason_for_visit,
    notes := match notes with | some v => some v | none => a.notes,
    duration_minutes := duration_minutes.getD a.duration_minutes }

/-- `CreateAppointment.mutate` (`appointments/schema.py`): doctors/admins
only; a doctor only for themselves; the slot pre-check rejects an existing
appointment at the same `(doctor, appointment_date)` with status in
`{SCHEDULED, CONFIRMED}`; the mutation takes no `status` argument, so the
model default `SCHEDULED` applies; `duration_minutes` defaults to 30. -/
def create_appointment (caller : Option User) (s : Store)
    (patient_id doctor_id : Nat) (appointment_date : Int)
    (reason_for_visit notes : Option String) (duration_minutes : Option Nat) :
    Resolved (MutationResult Appointment × Store) :=
  match caller with
  | none => .denied
  | some user =>
    if !(user.is_doctor || user.is_admin) then
      .ok (mErr "Only doctors and admins can create appointments", s)
    else
      match s.findPatient patient_id, s.findDoctor doctor_id with
      | some patient, some doctor =>
        if user.is_doctor && !(doctor.user_id == user.id) then
          .ok (mErr "You can only create appointments for your patients", s)
        else if s.appointments.any (fun b =>
            b.doctor_id == doctor.id && b.appointment_date == appointment_date &&
              (b.status == Status.SCHEDULED || b.status == Status.CONFIRMED)) then
          .ok (mErr "This time slot is already booked", s)
        else
          let a : Appointment :=
            { id := freshId (s.appointments.map Appointment.id),
              patient_id := patient.id,
              doctor_id := doctor.id,
              appointment_date := appointment_date,
              status := Status.SCHEDULED,
              notes := notes,
              reason_for_visit := reason_for_visit,
              duration_minutes := duration_minutes.getD 30 }
          match appointmentsInsert s a with
          | .ok s' => .ok (mOk a, s')
          | .error e => .ok (mErr e, s)
      | _, _ => .ok (mErr "Patient or Doctor not found", s)

/-- The tail of `UpdateAppointment.mutate`: apply the (possibly restricted)
field map and `save()`, catching the store error. -/
def finishAppointmentUpdate (s : Store) (a : Appointment)
    (appointment_date : Option Int) (status : Option Status)
    (reason_for_visit notes : Option String) (duration_minutes : Option Nat) :
    Resolved (MutationResult Appointment × Store) :=
  let a' := applyAppointmentFields a appointment_date status reason_for_visit
    notes duration_minutes
  match appointmentsSave s a' with
  | .ok s' => .ok (mOk a', s')
  | .error e => .ok (mErr e, s)

/-- `UpdateAppointment.mutate` (`appointments/schema.py`): admins and owning
doctors update any supplied field; an owning patient's field map is first
intersected with `allowed_fields = ['notes']` (other supplied fields are
silently dropped); everyone else gets "Permission denied". -/
def update_appointment (caller : Option User) (s : Store) (i : Nat)
    (appointment_date : Option Int) (status : Option Status)
    (reason_for_visit notes : Option String) (duration_minutes : Option Nat) :
    Resolved (MutationResult Appointment × Store) :=
  match caller with
  | none => .denied
  | some user =>
    match s.findAppointment i with
    | none => .ok (mErr "Appointment not found", s)
    | some appointment =>
      if user.is_admin then
        finishAppointmentUpdate s appointment appointment_date status
          reason_for_visit notes duration_minutes
      else if user.is_doctor && apptDoctorUserId s appointment == some user.id then
        finishAppointmentUpdate s appointment appointment_date status
          reason_for_visit notes duration_minutes
      else if user.is_patient && apptPatientUserId s appointment == some user.id then
        finishAppointmentUpdate s appointment none none none notes none
      else .ok (mErr "Permission denied", s)

/-- `CreateMedicalRecord.mutate` (`medical_records/schema.py`):
doctors/admins only; a doctor only for themselves; `follow_up_required`
defaults to `False`. -/
def create_medical_record (caller : Option User) (s : Store)
    (patient_id doctor_id : Nat) (visit_date : Int)
    (diagnosis treatment_notes : String) (follow_up_required : Option Bool) :
    Resolved (MutationResult MedicalRecord × Store) :=
  match caller with
  | none => .denied
  | some user =>
    if !(user.is_doctor || user.is_admin) then
      .ok (mErr "Only doctors and admins can create medical records", s)
    else
      match s.findPatient patient_id, s.findDoctor doctor_id with
      | some patient, some doctor =>
        if user.is_doctor && !(doctor.user_id == user.id) then
          .ok (mErr "You can only create medical records for your patients", s)
        else
          let m : MedicalRecord :=
            { id := freshId (s.medical_records.map MedicalRecord.id),
              patient_id := patient.id,
              doctor_id := doctor.id,
              visit_date := visit_date,
              diagnosis := diagnosis,
              treatment_notes := treatment_notes,
              follow_up_required := follow_up_required.getD false }
          match medicalRecordsInsert s m with
          | .ok s' => .ok (mOk m, s')
          | .error e => .ok (mErr e, s)
      | _, _ => .ok (mErr "Patient or Doctor not found", s)

/-- `UpdateMedicalRecord.mutate` (`medical_records/schema.py`): admins and
the owning doctor only; patients have no write access. -/
def update_medical_record (caller : Option User) (s : Store) (i : Nat)
    (diagnosis treatment_notes : Option String)
    (follow_up_required : Option Bool) :
    Resolved (MutationResult MedicalRecord × Store) :=
  match caller with
  | none => .denied
  | some user =>
    match s.findMedicalRecord i with
    | none => .ok (mErr "Medical record not found", s)
    | some medical_record =>
      if user.is_admin ||
          (user.is_doctor && mrDoctorUserId s medical_record == some user.id) then
        let m : MedicalRecord :=
          { medical_record with
            diagnosis := diagnosis.getD medical_record.diagnosis,
            treatment_notes := treatment_notes.getD medical_record.treatment_notes,
            follow_up_required :=
              follow_up_required.getD medical_record.follow_up_required }
        .ok (mOk m, medicalRecordsSave s m)
      else .ok (mErr "Permission denied", s)

/-- The `can_get` ownership predicate of `resolve_appointment_by_id`: the
disjunction of the three role branches of the source. -/
def canGetAppointment (s : Store) (u : User) (a : Appointment) : Bool :=
  u.is_admin || (u.is_doctor && apptDoctorUserId s a == some u.id)
    || (u.is_patient && apptPatientUserId s a == some u.id)

/-- The `can_get` ownership predicate of `resolve_patient_by_id`. -/
def canGetPatient (s : Store) (u : User) (p : Patient) : Bool :=
  u.is_admin || (u.is_doctor && patientSharesAppointmentWith s p u)
    || (u.is_patient && p.user_id == u.id)

/-- The `can_get` ownership predicate of `resolve_medical_record_by_id`. -/
def canGetMedicalRecord (s : Store) (u : User) (m : MedicalRecord) : Bool :=
  u.is_admin || (u.is_doctor && mrDoctorUserId s m == some u.id)
    || (u.is_patient && mrPatientUserId s m == some u.id)

/-- An appointment id is visible to a caller when a row with that id exists
and the caller's ownership predicate holds. -/
def visibleAppointment (s : Store) (u : User) (i : Nat) : Bool :=
  match s.findAppointment i with
  | some a => canGetAppointment s u a
  | none => false

/-- A patient id is visible to a caller. -/
def visiblePatient (s : Store) (u : User) (i : Nat) : Bool :=
  match s.findPatient i with
  | some p => canGetPatient s u p
  | none => false

/-- A medical record id is visible to a caller. -/
def visibleMedicalRecord (s : Store) (u : User) (i : Nat) : Bool :=
  match s.findMedicalRecord i with
  | some m => canGetMedicalRecord s u m
  | none => false

/-- Two appointment rows collide on the `unique_together` key. -/
def apptKeyClash (a b : Appointment) : Prop :=
  a.doctor_id = b.doctor_id ∧ a.appointment_date = b.appointment_date

/-- Store invariant: no two rows of the `appointments` table share a
`(doctor, appointment_date)` pair — irrespective of status. -/
def apptSlotsExclusive (s : Store) : Prop :=
  s.appointments.Pairwise (fun a b => ¬ apptKeyClash a b)

/-- Store invariant: primary keys of the `appointments` table are distinct. -/
def apptIdsDistinct (s : Store) : Prop :=
  s.appointments.Pairwise (fun a b => a.id ≠ b.id)

/-- `apptKeyClash` is decidable, so the slot invariant can be checked on
concrete stores. -/
instance instDecApptKeyClash (a b : Appointment) : Decidable (apptKeyClash a b) :=
  inferInstanceAs (Decidable (_ ∧ _))

/-- The store a mutation leaves behind (`denied` never reaches the store). -/
def mutationStore {α : Type} (r : Resolved (MutationResult α × Store))
    (s : Store) : Store :=
  match r with
  | .denied => s
  | .ok (_, s') => s'

/-- Uniform mutation outcome shape: every produced payload is either a full
success (`success=True`, empty errors, an entity) or a structured failure
(`success=False`, no entity, a non-empty error list) — never an uncaught
fault. -/
def uniformShape {α : Type} (r : Resolved (MutationResult α × Store)) : Prop :=
  ∀ m s', r = .ok (m, s') →
    (m.success = true ∧ m.errors = [] ∧ ∃ a, m.entity = some a) ∨
    (m.success = false ∧ m.entity = none ∧ m.errors ≠ [])

/-- Fixture: the admin principal. -/
def admin1 : User := ⟨1, "admin", Role.ADMIN⟩

/-- Fixture: doctor A's user account. -/
def docUserA : User := ⟨2, "drhouse", Role.DOCTOR⟩

/-- Fixture: doctor B's user account. -/
def docUserB : User := ⟨3, "drwilson", Role.DOCTOR⟩

/-- Fixture: patient P's user account. -/
def patUserP : User := ⟨4, "poppy", Role.PATIENT⟩

/-- Fixture: patient Q's user account. -/
def patUserQ : User := ⟨5, "quinn", Role.PATIENT⟩

/-- Fixture: doctor A (owned by `docUserA`), license `DOC123456`. -/
def doctorA : Doctor := ⟨1, 2, "Cardiology", "DOC123456", 10⟩

/-- Fixture: doctor B (owned by `docUserB`). -/
def doctorB : Doctor := ⟨2, 3, "Oncology", "DOC654321", 5⟩

/-- Fixture: patient P (owned by `patUserP`). -/
def patientP : Patient := ⟨1, 4, "MRN001", none⟩

/-- Fixture: patient Q (owned by `patUserQ`). -/
def patientQ : Patient := ⟨2, 5, "MRN002", none⟩

/-- Fixture: a SCHEDULED appointment of patient P with doctor A at t=100. -/
def apptSched : Appointment := ⟨1, 1, 1, 100, Status.SCHEDULED, none, none, 30⟩

/-- Fixture: the same slot, CANCELLED. -/
def apptCancel : Appointment := ⟨1, 1, 1, 100, Status.CANCELLED, none, none, 30⟩

/-- Fixture: a SCHEDULED appointment of patient Q with doctor B at t=200. -/
def apptOfB : Appointment := ⟨2, 2, 2, 200, Status.SCHEDULED, none, none, 30⟩

/-- Fixture store: one SCHEDULED appointment at `(doctorA, 100)`. -/
def storeSched : Store :=
  ⟨[admin1, docUserA, docUserB, patUserP, patUserQ], [doctorA, doctorB],
    [patientP, patientQ], [apptSched], []⟩

/-- Fixture store: the only appointment at `(doctorA, 100)` is CANCELLED. -/
def storeCancel : Store :=
  ⟨[admin1, docUserA, docUserB, patUserP, patUserQ], [doctorA, doctorB],
    [patientP, patientQ], [apptCancel], []⟩

/-- Fixture store: appointments of two distinct doctors. -/
def storeMixed : Store :=
  ⟨[admin1, docUserA, docUserB, patUserP, patUserQ], [doctorA, doctorB],
    [patientP, patientQ], [apptSched, apptOfB], []⟩

lemma is_patient_role {u : User} (h : u.is_patient = true) :
    u.role = Role.PATIENT := by
  simpa [User.is_patient] using h

lemma is_doctor_role {u : User} (h : u.is_doctor = true) :
    u.role = Role.DOCTOR := by
  simpa [User.is_doctor] using h

lemma is_admin_role {u : User} (h : u.is_admin = true) :
    u.role = Role.ADMIN := by
  simpa [User.is_admin] using h

lemma roles_exclusive (u : User) :
    (u.is_patient = true → u.is_doctor = false ∧ u.is_admin = false) ∧
    (u.is_doctor = true → u.is_patient = false ∧ u.is_admin = false) ∧
    (u.is_admin = true → u.is_patient = false ∧ u.is_doctor = false) := by
  cases h : u.role <;>
    simp [User.is_patient, User.is_doctor, User.is_admin, h]

lemma le_foldr_max {l : List Nat} {i : Nat} (h : i ∈ l) :
    i ≤ l.foldr (fun i m => max i m) 0 := by
  induction l with
  | nil => cases h
  | cons x xs ih =>
    rcases List.mem_cons.mp h with h | h
    · subst h; exact le_max_left _ _
    · exact le_trans (ih h) (le_max_right _ _)

lemma mem_lt_freshId {l : List Nat} {i : Nat} (h : i ∈ l) : i < freshId l :=
  Nat.lt_succ_of_le (le_foldr_max h)

lemma apptKeyClash_symm : Symmetric (fun a b => ¬ apptKeyClash a b) := by
  intro a b h hc
  exact h ⟨hc.1.symm, hc.2.symm⟩

lemma appointmentsInsert_ok {s s' : Store} {a : Appointment}
    (h : appointmentsInsert s a = .ok s') :
    s'.appointments = s.appointments ++ [a] ∧
      ∀ b ∈ s.appointments, ¬ apptKeyClash b a := by
  unfold appointmentsInsert at h
  split at h
  · cases h
  · next hany =>
    injection h with h
    subst h
    refine ⟨rfl, ?_⟩
    intro b hb hc
    apply hany
    rw [List.any_eq_true]
    exact ⟨b, hb, by simp [hc.1, hc.2]⟩

lemma wf_appointmentsInsert {s s' : Store} {a : Appointment}
    (h : appointmentsInsert s a = .ok s')
    (hfresh : ∀ b ∈ s.appointments, b.id ≠ a.id)
    (hi : apptIdsDistinct s) (hk : apptSlotsExclusive s) :
    apptIdsDistinct s' ∧ apptSlotsExclusive s' := by
  obtain ⟨happ, hnoclash⟩ := appointmentsInsert_ok h
  constructor
  · unfold apptIdsDistinct
    rw [happ, List.pairwise_append]
    exact ⟨hi, List.pairwise_singleton _ _, by
      intro b hb c hc
      rw [List.mem_singleton] at hc
      subst hc
      exact hfresh b hb⟩
  · unfold apptSlotsExclusive
    rw [happ, List.pairwise_append]
    exact ⟨hk, List.pairwise_singleton _ _, by
      intro b hb c hc
      rw [List.mem_singleton] at hc
      subst hc
      exact hnoclash b hb⟩

lemma appointmentsSave_ok {s s' : Store} {a : Appointment}
    (h : appointmentsSave s a = .ok s') :
    s'.appointments =
        s.appointments.map (fun b => if b.id == a.id then a else b) ∧
      ∀ b ∈ s.appointments, b.id ≠ a.id → ¬ apptKeyClash b a := by
  unfold appointmentsSave at h
  split at h
  · cases h
  · next hany =>
    injection h with h
    subst h
    refine ⟨rfl, ?_⟩
    intro b hb hbid hc
    apply hany
    rw [List.any_eq_true]
    exact ⟨b, hb, by simp [hc.1, hc.2, hbid]⟩

lemma wf_appointmentsSave {s s' : Store} {a : Appointment}
    (h : appointmentsSave s a = .ok s')
    (hi : apptIdsDistinct s) (hk : apptSlotsExclusive s) :
    apptIdsDistinct s' ∧ apptSlotsExclusive s' := by
  obtain ⟨happ, hnoclash⟩ := appointmentsSave_ok h
  have hidpres : ∀ b : Appointment,
      ((fun b => if b.id == a.id then a else b) b).id = b.id := by
    intro b
    by_cases hb : b.id = a.id
    · simp [hb]
    · simp [hb]
  constructor
  · unfold apptIdsDistinct
    rw [happ, List.pairwise_map]
    exact hi.imp (by
      intro x y hxy
      rw [hidpres x, hidpres y]
      exact hxy)
  · unfold apptSlotsExclusive
    rw [happ, List.pairwise_map]
    refine List.Pairwise.imp_of_mem ?_ (hi.and hk)
    intro x y hx hy hxy
    obtain ⟨hxyid, hxyclash⟩ := hxy
    by_cases hxa : x.id = a.id <;> by_cases hya : y.id = a.id
    · exact absurd (hxa.trans hya.symm) hxyid
    · rw [if_pos (by simp [hxa]), if_neg (by simp [hya])]
      intro hc
      exact hnoclash y hy hya ⟨hc.1.symm, hc.2.symm⟩
    · rw [if_neg (by simp [hxa]), if_pos (by simp [hya])]
      exact hnoclash x hx hxa
    · rw [if_neg (by simp [hxa]), if_neg (by simp [hya])]
      exact hxyclash


lemma mutationStore_denied {α : Type} (s : Store) :
    mutationStore (.denied : Resolved (MutationResult α × Store)) s = s := rfl

lemma mutationStore_ok {α : Type} (m : MutationResult α) (s s' : Store) :
    mutationStore (.ok (m, s')) s = s' := rfl

lemma create_appointment_result_cases (c : Option User) (s : Store)
    (pid did : Nat) (T : Int) (rv nt : Option String) (dm : Option Nat) :
    create_appointment c s pid did T rv nt dm = .denied ∨
    (∃ e, create_appointment c s pid did T rv nt dm = .ok (mErr e, s)) ∨
    (∃ a s', a.id = freshId (s.appointments.map Appointment.id) ∧
      a.status = Status.SCHEDULED ∧
      appointmentsInsert s a = .ok s' ∧
      create_appointment c s pid did T rv nt dm = .ok (mOk a, s')) := by
  rcases c with _ | user
  · exact Or.inl rfl
  · right
    simp only [create_appointment]
    split
    · exact Or.inl ⟨_, rfl⟩
    · split
      · split
        · exact Or.inl ⟨_, rfl⟩
        · split
          · exact Or.inl ⟨_, rfl⟩
          · split
            · next s' heq => exact Or.inr ⟨_, s', rfl, rfl, heq, rfl⟩
            · exact Or.inl ⟨_, rfl⟩
      · exact Or.inl ⟨_, rfl⟩

lemma finishAppointmentUpdate_result_cases (s : Store) (a : Appointment)
    (ad : Option Int) (st : Option Status) (rv nt : Option String)
    (dm : Option Nat) :
    (∃ e, finishAppointmentUpdate s a ad st rv nt dm = .ok (mErr e, s)) ∨
    (∃ s', appointmentsSave s (applyAppointmentFields a ad st rv nt dm) = .ok s' ∧
      finishAppointmentUpdate s a ad st rv nt dm =
        .ok (mOk (applyAppointmentFields a ad st rv nt dm), s')) := by
  simp only [finishAppointmentUpdate]
  split
  · next s' heq => exact Or.inr ⟨s', heq, rfl⟩
  · exact Or.inl ⟨_, rfl⟩

lemma update_appointment_result_cases (c : Option User) (s : Store) (i : Nat)
    (ad : Option Int) (st : Option Status) (rv nt : Option String)
    (dm : Option Nat) :
    update_appointment c s i ad st rv nt dm = .denied ∨
    (∃ e, update_appointment c s i ad st rv nt dm = .ok (mErr e, s)) ∨
    (∃ a' s', appointmentsSave s a' = .ok s' ∧
      update_appointment c s i ad st rv nt dm = .ok (mOk a', s')) := by
  rcases c with _ | user
  · exact Or.inl rfl
  · right
    simp only [update_appointment]
    split
    · exact Or.inl ⟨_, rfl⟩
    · next appointment _ =>
      split
      · rcases finishAppointmentUpdate_result_cases s appointment ad st rv nt dm
          with ⟨e, he⟩ | ⟨s', hsave, hfin⟩
        · exact Or.inl ⟨e, he⟩
        · exact Or.inr ⟨_, s', hsave, hfin⟩
      · split
        · rcases finishAppointmentUpdate_result_cases s appointment ad st rv nt dm
            with ⟨e, he⟩ | ⟨s', hsave, hfin⟩
          · exact Or.inl ⟨e, he⟩
          · exact Or.inr ⟨_, s', hsave, hfin⟩
        · split
          · rcases finishAppointmentUpdate_result_cases s appointment none none none nt none
              with ⟨e, he⟩ | ⟨s', hsave, hfin⟩
            · exact Or.inl ⟨e, he⟩
            · exact Or.inr ⟨_, s', hsave, hfin⟩
          · exact Or.inl ⟨_, rfl⟩

lemma uniformShape_denied {α : Type} :
    uniformShape (.denied : Resolved (MutationResult α × Store)) := by
  intro m s' h
  cases h

lemma uniformShape_mOk {α : Type} (a : α) (s : Store) :
    uniformShape (Resolved.ok (mOk a, s)) := by
  intro m s' h
  injection h with h
  rw [Prod.mk.injEq] at h
  rw [← h.1]
  exact Or.inl ⟨rfl, rfl, a, rfl⟩

lemma uniformShape_mErr {α : Type} (e : String) (s : Store) :
    uniformShape (Resolved.ok ((mErr e : MutationResult α), s)) := by
  intro m s' h
  injection h with h
  rw [Prod.mk.injEq] at h
  rw [← h.1]
  exact Or.inr ⟨rfl, rfl, by simp [mErr]⟩

lemma uniformShape_create_user (c : Option User) (s : Store) (un : String)
    (r : Option Role) : uniformShape (create_user c s un r) := by
  simp only [create_user]
  split
  · exact uniformShape_mOk _ _
  · exact uniformShape_mErr _ _

lemma uniformShape_create_doctor (c : Option User) (s : Store) (uid : Nat)
    (sp lic : String) (yoe : Option Nat) :
    uniformShape (create_doctor c s uid sp lic yoe) := by
  rcases c with _ | user
  · exact uniformShape_denied
  · simp only [create_doctor]
    split
    · exact uniformShape_mErr _ _
    · split
      · exact uniformShape_mErr _ _
      · split
        · exact uniformShape_mOk _ _
        · exact uniformShape_mErr _ _

lemma uniformShape_update_doctor (c : Option User) (s : Store) (i : Nat)
    (sp : Option String) (yoe : Option Nat) :
    uniformShape (update_doctor c s i sp yoe) := by
  rcases c with _ | user
  · exact uniformShape_denied
  · simp only [update_doctor]
    split
    · exact uniformShape_mErr _ _
    · split
      · exact uniformShape_mOk _ _
      · exact uniformShape_mErr _ _

lemma uniformShape_create_patient (c : Option User) (s : Store) (uid : Nat)
    (mrn : String) (ad : Option String) :
    uniformShape (create_patient c s uid mrn ad) := by
  rcases c with _ | user
  · exact uniformShape_denied
  · simp only [create_patient]
    split
    · exact uniformShape_mErr _ _
    · split
      · exact uniformShape_mErr _ _
      · split
        · exact uniformShape_mOk _ _
        · exact uniformShape_mErr _ _

lemma uniformShape_update_patient (c : Option User) (s : Store) (i : Nat)
    (ad : Option String) : uniformShape (update_patient c s i ad) := by
  rcases c with _ | user
  · exact uniformShape_denied
  · simp only [update_patient]
    split
    · exact uniformShape_mErr _ _
    · split
      · exact uniformShape_mOk _ _
      · split
        · split
          · exact uniformShape_mErr _ _
          · exact uniformShape_mOk _ _
        · split
          · exact uniformShape_mOk _ _
          · exact uniformShape_mErr _ _

lemma uniformShape_create_appointment (c : Option User) (s : Store)
    (pid did : Nat) (T : Int) (rv nt : Option String) (dm : Option Nat) :
    uniformShape (create_appointment c s pid did T rv nt dm) := by
  rcases create_appointment_result_cases c s pid did T rv nt dm
    with h | ⟨e, h⟩ | ⟨a, s', _, _, _, h⟩ <;> rw [h]
  · exact uniformShape_denied
  · exact uniformShape_mErr _ _
  · exact uniformShape_mOk _ _

lemma uniformShape_update_appointment (c : Option User) (s : Store) (i : Nat)
    (ad : Option Int) (st : Option Status) (rv nt : Option String)
    (dm : Option Nat) : uniformShape (update_appointment c s i ad st rv nt dm) := by
  rcases update_appointment_result_cases c s i ad st rv nt dm
    with h | ⟨e, h⟩ | ⟨a', s', _, h⟩ <;> rw [h]
  · exact uniformShape_denied
  · exact uniformShape_mErr _ _
  · exact uniformShape_mOk _ _

lemma uniformShape_create_medical_record (c : Option User) (s : Store)
    (pid did : Nat) (vd : Int) (dg tn : String) (fu : Option Bool) :
    uniformShape (create_medical_record c s pid did vd dg tn fu) := by
  rcases c with _ | user
  · exact uniformShape_denied
  · simp only [create_medical_record]
    split
    · exact uniformShape_mErr _ _
    · split
      · split
        · exact uniformShape_mErr _ _
        · split
          · exact uniformShape_mOk _ _
          · exact uniformShape_mErr _ _
      · exact uniformShape_mErr _ _

lemma uniformShape_update_medical_record (c : Option User) (s : Store)
    (i : Nat) (dg tn : Option String) (fu : Option Bool) :
    uniformShape (update_medical_record c s i dg tn fu) := by
  rcases c with _ | user
  · exact uniformShape_denied
  · simp only [update_medical_record]
    split
    · exact uniformShape_mErr _ _
    · split
      · exact uniformShape_mOk _ _
      · exact uniformShape_mErr _ _

/-- C8: `is_upcoming` holds exactly when the appointment date is strictly
after `now` and the status is SCHEDULED or CONFIRMED; `is_past` holds exactly
when the date is strictly before `now`, regardless of status. Neither value
is a stored column: both are functions of the row, recomputed per read. -/
theorem is_upcoming_is_past_characterization (a : Appointment) (now : Int) :
    (is_upcoming a now = true ↔
      (now < a.appointment_date ∧
        (a.status = Status.SCHEDULED ∨ a.status = Status.CONFIRMED))) ∧
    (is_past a now = true ↔ a.appointment_date < now) := by
  constructor
  · simp [is_upcoming]
  · simp [is_past]

/-- C8 witness: a SCHEDULED appointment one unit in the future is upcoming
and not past; the same row one unit in the past is past. -/
theorem is_upcoming_is_past_characterization_witness :
    is_upcoming apptSched 99 = true ∧ is_past apptSched 99 = false ∧
      is_past apptSched 101 = true := by
  refine ⟨?_, ?_, ?_⟩
  · exact (is_upcoming_is_past_characterization apptSched 99).1.mpr
      ⟨by decide, Or.inl rfl⟩
  · have h := (is_upcoming_is_past_characterization apptSched 99).2
    cases hb : is_past apptSched 99
    · rfl
    · exact absurd (h.mp hb) (by decide)
  · exact (is_upcoming_is_past_characterization apptSched 101).2.mpr (by decide)

/-- C2 (code_bug evidence): `resolve_user_by_id` carries no
`@login_required` decorator, so an unauthenticated caller (`none`) reading
user id 1 receives the full `User` record rather than an authentication
denial. -/
theorem user_by_id_readable_without_authentication :
    resolve_user_by_id none storeSched 1 = .ok (some admin1) ∧
      resolve_user_by_id none storeSched 1 ≠ .denied := by
  constructor
  · rfl
  · intro h
    cases h

/-- C5: for a DOCTOR caller, `all_appointments` returns exactly the
appointments whose doctor's owning user is that caller: the result is the
query-time filter of the appointments table by that ownership predicate, so
membership holds iff the row is in the store and owned by the caller. -/
theorem all_appointments_doctor_scoped (u : User) (s : Store)
    (hdoc : u.is_doctor = true) :
    ∃ l, resolve_all_appointments (some u) s = .ok l ∧
      ∀ a, a ∈ l ↔ (a ∈ s.appointments ∧ apptDoctorUserId s a = some u.id) := by
  have hrole := is_doctor_role hdoc
  have hadm : u.is_admin = false := by simp [User.is_admin, hrole]
  refine ⟨s.appointments.filter (fun a => apptDoctorUserId s a == some u.id),
    ?_, ?_⟩
  · simp [resolve_all_appointments, hadm, hdoc]
  · intro a
    simp [List.mem_filter]

/-- C5 witness: in the two-doctor fixture, doctor A's listing contains
exactly their own appointment and not doctor B's. -/
theorem all_appointments_doctor_scoped_witness :
    ∃ l, resolve_all_appointments (some docUserA) storeMixed = .ok l ∧
      ∀ a, a ∈ l ↔ (a ∈ storeMixed.appointments ∧
        apptDoctorUserId storeMixed a = some docUserA.id) :=
  all_appointments_doctor_scoped docUserA storeMixed (by decide)

/-- C4: for an authenticated caller, each get-by-id resolver (appointment,
patient, medical record) answers `.ok none` whenever the id is not visible to
the caller — whether because no such row exists or because the ownership
predicate fails. Both cases produce the identical value `.ok none`, and no
error is raised in either. -/
theorem get_by_id_hides_invisible_rows (u : User) (s : Store) (i : Nat) :
    (visibleAppointment s u i = false →
      resolve_appointment_by_id (some u) s i = .ok none) ∧
    (visiblePatient s u i = false →
      resolve_patient_by_id (some u) s i = .ok none) ∧
    (visibleMedicalRecord s u i = false →
      resolve_medical_record_by_id (some u) s i = .ok none) := by
  refine ⟨?_, ?_, ?_⟩
  · intro h
    unfold visibleAppointment at h
    unfold resolve_appointment_by_id
    cases hf : s.findAppointment i with
    | none => rfl
    | some a =>
      replace h : canGetAppointment s u a = false := by rw [hf] at h; exact h
      unfold canGetAppointment at h
      cases hadm : u.is_admin
      · cases hdoc : (u.is_doctor && apptDoctorUserId s a == some u.id)
        · cases hpat : (u.is_patient && apptPatientUserId s a == some u.id)
          · simp [hadm, hdoc, hpat]
          · rw [hadm, hdoc, hpat] at h; simp at h
        · rw [hadm, hdoc] at h; simp at h
      · rw [hadm] at h; simp at h
  · intro h
    unfold visiblePatient at h
    unfold resolve_patient_by_id
    cases hf : s.findPatient i with
    | none => rfl
    | some p =>
      replace h : canGetPatient s u p = false := by rw [hf] at h; exact h
      unfold canGetPatient at h
      cases hadm : u.is_admin
      · cases hdoc : (u.is_doctor && patientSharesAppointmentWith s p u)
        · cases hpat : (u.is_patient && p.user_id == u.id)
          · simp [hadm, hdoc, hpat]
          · rw [hadm, hdoc, hpat] at h; simp at h
        · rw [hadm, hdoc] at h; simp at h
      · rw [hadm] at h; simp at h
  · intro h
    unfold visibleMedicalRecord at h
    unfold resolve_medical_record_by_id
    cases hf : s.findMedicalRecord i with
    | none => rfl
    | some m =>
      replace h : canGetMedicalRecord s u m = false := by rw [hf] at h; exact h
      unfold canGetMedicalRecord at h
      cases hadm : u.is_admin
      · cases hdoc : (u.is_doctor && mrDoctorUserId s m == some u.id)
        · cases hpat : (u.is_patient && mrPatientUserId s m == some u.id)
          · simp [hadm, hdoc, hpat]
          · rw [hadm, hdoc, hpat] at h; simp at h
        · rw [hadm, hdoc] at h; simp at h
      · rw [hadm] at h; simp at h

/-- C4 witness: patient Q cannot see appointment 1 (owned by patient P) and
gets `.ok none`, exactly the answer for the absent patient id 99 and the
absent medical record id 1. -/
theorem get_by_id_hides_invisible_rows_witness :
    resolve_appointment_by_id (some patUserQ) storeSched 1 = .ok none ∧
    resolve_patient_by_id (some patUserQ) storeSched 99 = .ok none ∧
    resolve_medical_record_by_id (some patUserQ) storeSched 1 = .ok none := by
  refine ⟨?_, ?_, ?_⟩
  · exact (get_by_id_hides_invisible_rows patUserQ storeSched 1).1 (by decide)
  · exact (get_by_id_hides_invisible_rows patUserQ storeSched 99).2.1 (by decide)
  · exact (get_by_id_hides_invisible_rows patUserQ storeSched 1).2.2 (by decide)

/-- C6: a PATIENT caller and an appointment they do not own: the get-by-id
check yields no access (`.ok none`), and `update_appointment` returns
`success=false` with the "Permission denied" error, leaving the store — and
so the appointment — unchanged. -/
theorem patient_denied_on_foreign_appointment (u : User) (s : Store) (i : Nat)
    (a : Appointment) (ad : Option Int) (st : Option Status)
    (rv nt : Option String) (dm : Option Nat)
    (hpat : u.is_patient = true)
    (hfind : s.findAppointment i = some a)
    (hnotown : ¬ apptPatientUserId s a = some u.id) :
    resolve_appointment_by_id (some u) s i = .ok none ∧
    update_appointment (some u) s i ad st rv nt dm =
      .ok (mErr "Permission denied", s) := by
  have hrole := is_patient_role hpat
  have hadm : u.is_admin = false := by simp [User.is_admin, hrole]
  have hdoc : u.is_doctor = false := by simp [User.is_doctor, hrole]
  have hp2 : (apptPatientUserId s a == some u.id) = false := by
    simp [hnotown]
  constructor
  · simp [resolve_appointment_by_id, hfind, hadm, hdoc, hp2]
  · simp [update_appointment, hfind, hadm, hdoc, hp2]

/-- C6 witness: patient Q neither sees nor updates appointment 1, which
belongs to patient P; the attempted status change is refused with
"Permission denied" and the store is returned unchanged. -/
theorem patient_denied_on_foreign_appointment_witness :
    resolve_appointment_by_id (some patUserQ) storeSched 1 = .ok none ∧
    update_appointment (some patUserQ) storeSched 1 none
        (some Status.COMPLETED) none none none =
      .ok (mErr "Permission denied", storeSched) :=
  patient_denied_on_foreign_appointment patUserQ storeSched 1 apptSched
    none (some Status.COMPLETED) none none none
    (by decide) (by decide) (by decide)

lemma finishAppointmentUpdate_ok_of_no_clash (s : Store) (a : Appointment)
    (ad : Option Int) (st : Option Status) (rv nt : Option String)
    (dm : Option Nat)
    (hany : (s.appointments.any fun b =>
      !(b.id == (applyAppointmentFields a ad st rv nt dm).id) &&
        b.doctor_id == (applyAppointmentFields a ad st rv nt dm).doctor_id &&
        b.appointment_date ==
          (applyAppointmentFields a ad st rv nt dm).appointment_date) = false) :
    finishAppointmentUpdate s a ad st rv nt dm =
      .ok (mOk (applyAppointmentFields a ad st rv nt dm),
        { s with appointments := s.appointments.map fun b =>
            if b.id == (applyAppointmentFields a ad st rv nt dm).id
            then applyAppointmentFields a ad st rv nt dm else b }) := by
  simp only [finishAppointmentUpdate, appointmentsSave, hany]
  rfl

/-- C3: a PATIENT updating an appointment they own, with any payload: the
update succeeds (`success=true`, empty errors) and applies only `notes`;
`status`, `appointment_date`, `duration_minutes`, `reason_for_visit` and all
identifying fields keep their previous values, and the dropped fields
produce no error. -/
theorem patient_update_applies_only_notes (u : User) (s : Store) (i : Nat)
    (a : Appointment) (ad : Option Int) (st : Option Status)
    (rv nt : Option String) (dm : Option Nat)
    (hpat : u.is_patient = true)
    (hfind : s.findAppointment i = some a)
    (hown : apptPatientUserId s a = some u.id)
    (hkeys : apptSlotsExclusive s) :
    ∃ a' s', update_appointment (some u) s i ad st rv nt dm =
        .ok (mOk a', s') ∧
      a'.notes = (match nt with | some v => some v | none => a.notes) ∧
      a'.status = a.status ∧
      a'.appointment_date = a.appointment_date ∧
      a'.reason_for_visit = a.reason_for_visit ∧
      a'.duration_minutes = a.duration_minutes ∧
      a'.id = a.id ∧ a'.patient_id = a.patient_id ∧
      a'.doctor_id = a.doctor_id := by
  have hrole := is_patient_role hpat
  have hadm : u.is_admin = false := by simp [User.is_admin, hrole]
  have hdoc : u.is_doctor = false := by simp [User.is_doctor, hrole]
  have hmem : a ∈ s.appointments := List.mem_of_find?_eq_some hfind
  have hany : (s.appointments.any fun b =>
      !(b.id == (applyAppointmentFields a none none none nt none).id) &&
        b.doctor_id == (applyAppointmentFields a none none none nt none).doctor_id &&
        b.appointment_date ==
          (applyAppointmentFields a none none none nt none).appointment_date) = false := by
    rw [List.any_eq_false]
    intro b hb hcontra
    simp only [Bool.and_eq_true, Bool.not_eq_eq_eq_not, Bool.not_true,
      beq_eq_false_iff_ne, beq_iff_eq] at hcontra
    have hba : b ≠ a := by
      intro hsame
      exact hcontra.1.1 (by rw [hsame]; rfl)
    have hnc := List.Pairwise.forall apptKeyClash_symm hkeys hb hmem hba
    exact hnc ⟨hcontra.1.2, hcontra.2⟩
  have hupd : update_appointment (some u) s i ad st rv nt dm =
      finishAppointmentUpdate s a none none none nt none := by
    simp only [update_appointment, hfind]
    rw [if_neg (by simp [hadm]), if_neg (by simp [hdoc]),
      if_pos (by simp [hpat, hown])]
  exact ⟨_, _, hupd.trans
      (finishAppointmentUpdate_ok_of_no_clash s a none none none nt none hany),
    rfl, rfl, rfl, rfl, rfl, rfl, rfl, rfl⟩

/-- C3 witness: patient P updates their appointment with payload
`{notes: "feeling fine", status: COMPLETED, duration_minutes: 90}`; the
update succeeds and only `notes` changes. -/
theorem patient_update_applies_only_notes_witness :
    ∃ a' s', update_appointment (some patUserP) storeSched 1 none
        (some Status.COMPLETED) none (some "feeling fine") (some 90) =
        .ok (mOk a', s') ∧
      a'.notes = some "feeling fine" ∧
      a'.status = apptSched.status ∧
      a'.appointment_date = apptSched.appointment_date ∧
      a'.reason_for_visit = apptSched.reason_for_visit ∧
      a'.duration_minutes = apptSched.duration_minutes ∧
      a'.id = apptSched.id ∧ a'.patient_id = apptSched.patient_id ∧
      a'.doctor_id = apptSched.doctor_id :=
  patient_update_applies_only_notes patUserP storeSched 1 apptSched
    none (some Status.COMPLETED) none (some "feeling fine") (some 90)
    (by decide) (by decide) (by decide)
    (by unfold apptSlotsExclusive; decide)

/-- C10: `create_appointment` takes no status argument; whenever it succeeds
(`success=true` with a created appointment), that appointment's status is the
model default SCHEDULED. Other statuses are reachable only through
`update_appointment`, which is the sole mutation with a status argument. -/
theorem created_appointment_is_scheduled (c : Option User) (s : Store)
    (pid did : Nat) (T : Int) (rv nt : Option String) (dm : Option Nat)
    (m : MutationResult Appointment) (s2 : Store) (a : Appointment)
    (h : create_appointment c s pid did T rv nt dm = .ok (m, s2))
    (hsucc : m.success = true) (hent : m.entity = some a) :
    a.status = Status.SCHEDULED := by
  rcases create_appointment_result_cases c s pid did T rv nt dm
    with hc | ⟨e, hc⟩ | ⟨a0, s', _, hst, _, hc⟩
  · rw [h] at hc; cases hc
  · rw [h] at hc
    injection hc with hc
    rw [Prod.mk.injEq] at hc
    rw [hc.1] at hsucc
    simp [mErr] at hsucc
  · rw [h] at hc
    injection hc with hc
    rw [Prod.mk.injEq] at hc
    rw [hc.1] at hent
    simp only [mOk] at hent
    injection hent with hent
    rw [← hent]
    exact hst

/-- C10 witness: an admin books a free slot; the created appointment carries
status SCHEDULED. -/
theorem created_appointment_is_scheduled_witness :
    ∃ m s2 a, create_appointment (some admin1) storeSched 1 1 300
        none none none = .ok (m, s2) ∧
      m.success = true ∧ m.entity = some a ∧ a.status = Status.SCHEDULED := by
  have h : create_appointment (some admin1) storeSched 1 1 300 none none none =
      .ok (mOk ⟨2, 1, 1, 300, Status.SCHEDULED, none, none, 30⟩,
        { storeSched with appointments :=
            [apptSched, ⟨2, 1, 1, 300, Status.SCHEDULED, none, none, 30⟩] }) := by
    decide
  exact ⟨_, _, _, h, rfl, rfl,
    created_appointment_is_scheduled (some admin1) storeSched 1 1 300
      none none none _ _ _ h rfl rfl⟩

/-- C1 counterexample: in the fixture whose only appointment at
`(doctorA, 100)` is CANCELLED, the claimed successful re-booking does not
happen: the slot pre-check passes, but the store's unconditional
`unique_together (doctor, appointment_date)` constraint rejects the insert,
so the admin's create returns `success=false` with the constraint error
(`mErr` carries `success=false` and no entity), not `success=true`. -/
theorem create_over_cancelled_slot_fails :
    create_appointment (some admin1) storeCancel 1 1 100 none none none =
      .ok (mErr "UNIQUE constraint failed: appointments.doctor_id, appointments.appointment_date",
        storeCancel) ∧
    (mErr "UNIQUE constraint failed: appointments.doctor_id, appointments.appointment_date"
      : MutationResult Appointment).success = false ∧
    storeCancel.appointments = [apptCancel] ∧
    apptCancel.status = Status.CANCELLED := by
  refine ⟨by decide, rfl, rfl, rfl⟩

/-- C1 (amended): for an authorized creator (admin, or the slot's own
doctor), a create at `(doctor, T)` is rejected with the booking-conflict
error when an existing appointment at that exact key has status SCHEDULED or
CONFIRMED; when appointments exist at that key but none is SCHEDULED or
CONFIRMED (e.g. only a CANCELLED one), the pre-check passes but the create
still fails, now with the store's uniqueness-violation error — in both cases
`success=false` and the store is unchanged. -/
theorem create_appointment_slot_semantics (u : User) (s : Store)
    (pid did : Nat) (T : Int) (rv nt : Option String) (dm : Option Nat)
    (patient : Patient) (doctor : Doctor)
    (hp : s.findPatient pid = some patient)
    (hd : s.findDoctor did = some doctor)
    (hrole : u.is_admin = true ∨ (u.is_doctor = true ∧ doctor.user_id = u.id)) :
    ((∃ b ∈ s.appointments, b.doctor_id = doctor.id ∧ b.appointment_date = T ∧
        (b.status = Status.SCHEDULED ∨ b.status = Status.CONFIRMED)) →
      create_appointment (some u) s pid did T rv nt dm =
        .ok (mErr "This time slot is already booked", s)) ∧
    ((∃ b ∈ s.appointments, b.doctor_id = doctor.id ∧ b.appointment_date = T) →
      (∀ b ∈ s.appointments, b.doctor_id = doctor.id → b.appointment_date = T →
        ¬(b.status = Status.SCHEDULED ∨ b.status = Status.CONFIRMED)) →
      create_appointment (some u) s pid did T rv nt dm =
        .ok (mErr "UNIQUE constraint failed: appointments.doctor_id, appointments.appointment_date",
          s)) := by
  have hgate : (!(u.is_doctor || u.is_admin)) = false := by
    rcases hrole with h | ⟨h, _⟩ <;> simp [h]
  have hown : (u.is_doctor && !(doctor.user_id == u.id)) = false := by
    rcases hrole with h | ⟨h1, h2⟩
    · exact by simp [((roles_exclusive u).2.2 h).2]
    · simp [h2]
  constructor
  · rintro ⟨b, hb, hbd, hbt, hbs⟩
    have hslot : (s.appointments.any fun c =>
        c.doctor_id == doctor.id && c.appointment_date == T &&
          (c.status == Status.SCHEDULED || c.status == Status.CONFIRMED)) = true := by
      rw [List.any_eq_true]
      refine ⟨b, hb, ?_⟩
      rcases hbs with h | h <;> simp [hbd, hbt, h]
    simp only [create_appointment, hp, hd]
    rw [if_neg (by simp [hgate]), if_neg (by simp [hown]), if_pos hslot]
  · rintro ⟨b, hb, hbd, hbt⟩ hall
    have hslot : (s.appointments.any fun c =>
        c.doctor_id == doctor.id && c.appointment_date == T &&
          (c.status == Status.SCHEDULED || c.status == Status.CONFIRMED)) = false := by
      rw [List.any_eq_false]
      intro c hc hcontra
      simp only [Bool.and_eq_true, Bool.or_eq_true, beq_iff_eq] at hcontra
      exact hall c hc hcontra.1.1 hcontra.1.2 hcontra.2
    have huniq : (s.appointments.any fun c =>
        c.doctor_id == doctor.id && c.appointment_date == T) = true := by
      rw [List.any_eq_true]
      exact ⟨b, hb, by simp [hbd, hbt]⟩
    simp only [create_appointment, hp, hd]
    rw [if_neg (by simp [hgate]), if_neg (by simp [hown]), if_neg (by simp [hslot])]
    simp only [appointmentsInsert]
    rw [if_pos (by simpa using huniq)]

/-- C1 witness: in the SCHEDULED fixture the second booking of `(doctorA,
100)` is refused with the conflict error; in the CANCELLED fixture the
booking is refused with the uniqueness-violation error. -/
theorem create_appointment_slot_semantics_witness :
    create_appointment (some admin1) storeSched 1 1 100 none none none =
      .ok (mErr "This time slot is already booked", storeSched) ∧
    create_appointment (some admin1) storeCancel 1 1 100 none none none =
      .ok (mErr "UNIQUE constraint failed: appointments.doctor_id, appointments.appointment_date",
        storeCancel) := by
  constructor
  · exact (create_appointment_slot_semantics admin1 storeSched 1 1 100
      none none none patientP doctorA (by decide) (by decide)
      (Or.inl (by decide))).1
      ⟨apptSched, by decide, by decide, by decide, Or.inl (by decide)⟩
  · exact (create_appointment_slot_semantics admin1 storeCancel 1 1 100
      none none none patientP doctorA (by decide) (by decide)
      (Or.inl (by decide))).2
      ⟨apptCancel, by decide, by decide, by decide⟩ (by decide)

/-- C9: the store invariant behind `unique_together ['doctor',
'appointment_date']` — no two appointment rows ever share a `(doctor,
appointment_date)` pair, regardless of status (CANCELLED, COMPLETED and
NO_SHOW rows included), which is strictly stronger than exclusivity over
SCHEDULED/CONFIRMED rows only. Together with primary-key distinctness it is
preserved by every appointment create and update. -/
theorem appointment_slot_pair_never_duplicated (c : Option User) (s : Store)
    (pid did : Nat) (T : Int) (rv nt : Option String) (dm : Option Nat)
    (i : Nat) (ad : Option Int) (st : Option Status)
    (rv2 nt2 : Option String) (dm2 : Option Nat)
    (hids : apptIdsDistinct s) (hkeys : apptSlotsExclusive s) :
    (apptIdsDistinct (mutationStore (create_appointment c s pid did T rv nt dm) s) ∧
      apptSlotsExclusive (mutationStore (create_appointment c s pid did T rv nt dm) s)) ∧
    (apptIdsDistinct (mutationStore (update_appointment c s i ad st rv2 nt2 dm2) s) ∧
      apptSlotsExclusive (mutationStore (update_appointment c s i ad st rv2 nt2 dm2) s)) := by
  constructor
  · rcases create_appointment_result_cases c s pid did T rv nt dm
      with h | ⟨e, h⟩ | ⟨a, s', hid, _, hins, h⟩
    · rw [h, mutationStore_denied]; exact ⟨hids, hkeys⟩
    · rw [h, mutationStore_ok]; exact ⟨hids, hkeys⟩
    · rw [h, mutationStore_ok]
      refine wf_appointmentsInsert hins ?_ hids hkeys
      intro b hb
      rw [hid]
      exact Nat.ne_of_lt (mem_lt_freshId (List.mem_map_of_mem _ hb))
  · rcases update_appointment_result_cases c s i ad st rv2 nt2 dm2
      with h | ⟨e, h⟩ | ⟨a', s', hsave, h⟩
    · rw [h, mutationStore_denied]; exact ⟨hids, hkeys⟩
    · rw [h, mutationStore_ok]; exact ⟨hids, hkeys⟩
    · rw [h, mutationStore_ok]; exact wf_appointmentsSave hsave hids hkeys

/-- C9 witness: the mixed two-doctor fixture satisfies both invariant parts,
and they persist through a concrete admin create (a new slot for doctor A)
and a concrete admin update (editing the notes of appointment 1). -/
theorem appointment_slot_pair_never_duplicated_witness :
    (apptIdsDistinct (mutationStore (create_appointment (some admin1)
        storeMixed 1 1 300 none none none) storeMixed) ∧
      apptSlotsExclusive (mutationStore (create_appointment (some admin1)
        storeMixed 1 1 300 none none none) storeMixed)) ∧
    (apptIdsDistinct (mutationStore (update_appointment (some admin1)
        storeMixed 1 none none none (some "hi") none) storeMixed) ∧
      apptSlotsExclusive (mutationStore (update_appointment (some admin1)
        storeMixed 1 none none none (some "hi") none) storeMixed)) :=
  appointment_slot_pair_never_duplicated (some admin1) storeMixed
    1 1 300 none none none 1 none none none (some "hi") none
    (by unfold apptIdsDistinct; decide)
    (by unfold apptSlotsExclusive; decide)

/-- C7: mutations never surface a store-level exception as a fault. First,
the cited scenario: an admin creating a Doctor whose license number is
already taken gets a structured failure (`success=false`, no entity, one
error string, store unchanged). Second, every create and update mutation of
the API, on every caller and store, produces the uniform result shape:
either a full success with empty errors, or `success=false` with no entity
and a non-empty error list. -/
theorem mutations_catch_store_errors :
    (∀ (u : User) (s : Store) (uid : Nat) (sp lic : String)
        (yoe : Option Nat) (w : User),
      u.is_admin = true → s.findUser uid = some w →
      (∃ d ∈ s.doctors, d.license_number = lic) →
      ∃ e, create_doctor (some u) s uid sp lic yoe = .ok (mErr e, s)) ∧
    (∀ c s un r, uniformShape (create_user c s un r)) ∧
    (∀ c s uid sp lic yoe, uniformShape (create_doctor c s uid sp lic yoe)) ∧
    (∀ c s i sp yoe, uniformShape (update_doctor c s i sp yoe)) ∧
    (∀ c s uid mrn ad, uniformShape (create_patient c s uid mrn ad)) ∧
    (∀ c s i ad, uniformShape (update_patient c s i ad)) ∧
    (∀ c s pid did T rv nt dm,
      uniformShape (create_appointment c s pid did T rv nt dm)) ∧
    (∀ c s i ad st rv nt dm,
      uniformShape (update_appointment c s i ad st rv nt dm)) ∧
    (∀ c s pid did vd dg tn fu,
      uniformShape (create_medical_record c s pid did vd dg tn fu)) ∧
    (∀ c s i dg tn fu, uniformShape (update_medical_record c s i dg tn fu)) := by
  refine ⟨?_, uniformShape_create_user, uniformShape_create_doctor,
    uniformShape_update_doctor, uniformShape_create_patient,
    uniformShape_update_patient, uniformShape_create_appointment,
    uniformShape_update_appointment, uniformShape_create_medical_record,
    uniformShape_update_medical_record⟩
  rintro u s uid sp lic yoe w hadm hfw ⟨d, hd, hlic⟩
  simp only [create_doctor, hfw]
  rw [if_neg (by simp [hadm])]
  simp only [doctorsInsert]
  by_cases hu : (s.doctors.any fun e => e.user_id == w.id) = true
  · rw [if_pos hu]
    exact ⟨_, rfl⟩
  · rw [if_neg hu, if_pos (by
      rw [List.any_eq_true]
      exact ⟨d, hd, by simp [hlic]⟩)]
    exact ⟨_, rfl⟩

/-- C7 witness: the duplicate-license scenario on the fixture store — admin
creates a Doctor for user 5 with doctor A's license `DOC123456`; the result
is a structured failure carrying one error string with the store unchanged. -/
theorem mutations_catch_store_errors_witness :
    ∃ e, create_doctor (some admin1) storeSched 5 "Dermatology" "DOC123456"
        none = .ok (mErr e, storeSched) :=
  mutations_catch_store_errors.1 admin1 storeSched 5 "Dermatology"
    "DOC123456" none patUserQ (by decide) (by decide)
    ⟨doctorA, by decide, by decide⟩
